import Mathlib

/-!
Shallow embedding of the `in-receipt` portfolio repository: the admin CRUD
server (images and projects), the admin client form logic, the desktop scroll
controller, the desktop project panel open/close logic, the image preloader,
and the responsive-image library.  Each definition is translated from the
corresponding source function; theorems settle the behavioural claims about
them.
-/

namespace InReceipt

/-! ## Data model

`ImageRecord` mirrors the image rows handled by `rowToImageData` /
`imageDataToRow` in the admin server (`admin/server.js`): a Cloudflare image
id, the account hash, a 2-D focal point, alt text, original filename, pixel
dimensions, and the upload timestamp.  Focal coordinates are rationals.
-/

structure ImageRecord where
  cloudflareId : String
  accountHash : String
  focalPointX : ℚ
  focalPointY : ℚ
  alt : String
  filename : String
  width : Int
  height : Int
  uploadedAt : String
  deriving DecidableEq, Repr

/-- The local image store: Supabase `images` rows (resp. the `images.json`
object), keyed by the caller-chosen id. -/
abbrev ImageStore := List (String × ImageRecord)

/-! ## DELETE /api/images/:id (admin server)

The handler first looks the record up locally (404 when absent), then issues
the Cloudflare DELETE; only when the Cloudflare response reports success does
it delete the local row.  A Cloudflare failure is reported as a 500 with the
upstream error details; a database failure after a successful Cloudflare
delete is reported as a 500 "Delete failed".

The external world is modelled by two oracles: `cfDeleteOk` tells, per
Cloudflare image id, whether the Cloudflare deletion reports success, and
`dbOk` whether the subsequent database delete succeeds.  Side-effecting calls
are recorded in an effect trace so that ordering claims can be stated.
-/

inductive DeleteEffect where
  | cloudflareDelete (cloudflareId : String)
  | localDelete (id : String)
  deriving DecidableEq, Repr

structure DeleteResponse where
  status : Nat
  error : Option String
  details : Bool        -- whether the upstream error details are included
  success : Bool
  deriving DecidableEq, Repr

/-- `app.delete('/api/images/:id')` from the admin server, as a function from
the local store (plus the two external oracles) to the HTTP response, the new
store and the trace of side-effecting calls, in the order the handler makes
them. -/
def deleteImageHandler (store : ImageStore) (cfDeleteOk : String → Bool)
    (dbOk : Bool) (id : String) :
    DeleteResponse × ImageStore × List DeleteEffect :=
  match store.lookup id with
  | none =>
      ({ status := 404, error := some "Image not found", details := false,
         success := false }, store, [])
  | some img =>
      if cfDeleteOk img.cloudflareId then
        if dbOk then
          ({ status := 200, error := none, details := false, success := true },
           store.filter (fun p => p.1 ≠ id),
           [.cloudflareDelete img.cloudflareId, .localDelete id])
        else
          ({ status := 500, error := some "Delete failed", details := false,
             success := false }, store,
           [.cloudflareDelete img.cloudflareId, .localDelete id])
      else
        ({ status := 500, error := some "Failed to delete from Cloudflare",
           details := true, success := false }, store,
         [.cloudflareDelete img.cloudflareId])

/-! ## Admin client: focal point selection (`setFocalPoint` in app.js) -/

/-- Bounding rectangle of the preview image, as reported by
`getBoundingClientRect`. -/
structure Rect where
  left : ℚ
  top : ℚ
  width : ℚ
  height : ℚ
  deriving DecidableEq, Repr

/-- `setFocalPoint` from the admin client: normalise the click position by the
image rectangle and clamp each coordinate to `[0, 1]`. -/
def setFocalPoint (clientX clientY : ℚ) (rect : Rect) : ℚ × ℚ :=
  let x := (clientX - rect.left) / rect.width
  let y := (clientY - rect.top) / rect.height
  (max 0 (min 1 x), max 0 (min 1 y))

/-! ## Preloader (`src/scripts/preloader.ts`)

`setupPreloader` iterates over every project card and calls `preloadImage` on
every image URL of the card, synchronously, during setup.  Each
`preloadImage` creates a detached `Image` and assigns `src`, which starts a
network fetch immediately; nothing is awaited, so no fetch completes before
the synchronous loop finishes.  A card is modelled by its list of gallery
image URLs (`getProjectImages`).
-/

/-- The list of fetches issued by `setupPreloader`, in issue order: one per
(card, image URL) pair. -/
def setupPreloaderFetches (cards : List (List String)) : List String :=
  cards.foldr (fun imgs acc => imgs ++ acc) []

/-- Number of fetches in flight at the end of the synchronous `setupPreloader`
call: all issued fetches, since image load events cannot fire before the
current task completes. -/
def inFlightAfterSetup (cards : List (List String)) : Nat :=
  (setupPreloaderFetches cards).length

/-! ## Admin client: upload form validation and save (`app.js`)

`validateForm` computes `saveBtn.disabled` from the trimmed id input, the
currently selected file and the loaded image library:
`isValid = id && currentFile && !images[id]`, `saveBtn.disabled = !isValid`.
`handleSave` runs only when the save button is clicked, which the browser
allows only while the button is enabled; it first POSTs `/api/upload` and,
when the upload succeeds, POSTs the metadata to `/api/images/:id`.
-/

/-- Network requests the admin client can issue during a save. -/
inductive ClientRequest where
  | upload
  | saveImage (id : String)
  deriving DecidableEq, Repr

/-- JavaScript `String.prototype.trim`: strip whitespace from both ends. -/
def trimString (s : String) : String :=
  ⟨(((s.data.dropWhile Char.isWhitespace).reverse.dropWhile
      Char.isWhitespace).reverse)⟩

/-- `validateForm`: the resulting `saveBtn.disabled` flag.  `images` is the
loaded library keyed by id, `idInput` the raw id field, `currentFile` the
selected file (by name), mirroring the truthiness tests of the source. -/
def validateForm (images : ImageStore) (idInput : String)
    (currentFile : Option String) : Bool :=
  let id := (trimString idInput)
  !(id ≠ "" && currentFile.isSome && (images.lookup id).isNone : Bool)

/-- The network requests issued by a click on the save button: none when the
button is disabled (a disabled button does not fire) or no file is selected
(`handleSave` returns early); otherwise the upload request, followed by the
metadata save only when the upload succeeded. -/
def saveClickRequests (disabled : Bool) (currentFile : Option String)
    (idInput : String) (uploadOk : Bool) : List ClientRequest :=
  if disabled then []
  else
    match currentFile with
    | none => []
    | some _ =>
        if uploadOk then [.upload, .saveImage (trimString idInput)] else [.upload]

/-! ## POST /api/projects (admin server)

`Project` mirrors `rowToProjectData` / `projectDataToRow`: title, category,
thumbnail reference, short/long descriptions, year/location/type, an ordered
image-id list and an integer rank.  `ProjectBody` is the request body before
normalisation (optional fields may be absent); `projectDataToRow` applies the
server's defaults.
-/

structure Project where
  id : String
  title : String
  category : String
  thumbnail : Option String
  shortDescription : Option String
  fullDescription : Option String
  year : Option String
  location : Option String
  kind : Option String        -- the `type` column
  images : List String
  rank : Int
  deriving DecidableEq, Repr

structure ProjectBody where
  id : String
  title : String
  category : String
  thumbnail : Option String
  shortDescription : Option String
  fullDescription : Option String
  year : Option String
  location : Option String
  kind : Option String
  images : Option (List String)
  rank : Option Int
  deriving DecidableEq, Repr

/-- `projectDataToRow` from the admin server: fill in defaults (`null` for
missing text fields, `[]` for images, `0` for rank). -/
def projectDataToRow (data : ProjectBody) : Project :=
  { id := data.id
    title := data.title
    category := data.category
    thumbnail := data.thumbnail
    shortDescription := data.shortDescription
    fullDescription := data.fullDescription
    year := data.year
    location := data.location
    kind := data.kind
    images := data.images.getD []
    rank := data.rank.getD 0 }

structure ProjectResponse where
  status : Nat
  error : Option String
  success : Bool
  deriving DecidableEq, Repr

/-- `app.post('/api/projects')`: reject with a 400 when a project with the
body's id already exists (store untouched), otherwise insert the normalised
row and report success. -/
def createProjectHandler (store : List Project) (body : ProjectBody) :
    ProjectResponse × List Project :=
  if (store.find? (fun p => p.id == body.id)).isSome then
    ({ status := 400, error := some "Project ID already exists",
       success := false }, store)
  else
    ({ status := 200, error := none, success := true },
     store ++ [projectDataToRow body])

/-! ## PUT /api/projects/reorder (admin server)

The handler validates `category` and `projectIds` (400 when the category is
falsy or the ids are not an array) and then, for each listed id and its
position, runs
`update({rank: index}).eq('id', id).eq('category', category)`.  The updates
touch pairwise distinct rows when the ids are distinct, so awaiting them with
`Promise.all` is equivalent to applying them in order.
-/

/-- One Supabase rank update: set `rank` on every row matching both the id
and the category. -/
def applyRankUpdate (category id : String) (rank : Int)
    (store : List Project) : List Project :=
  store.map (fun p =>
    if p.id = id ∧ p.category = category then { p with rank := rank } else p)

/-- Apply the rank update for each `(index, id)` pair. -/
def applyRankUpdates (category : String) :
    List (Nat × String) → List Project → List Project
  | [], store => store
  | (idx, pid) :: rest, store =>
      applyRankUpdates category rest
        (applyRankUpdate category pid (idx : Int) store)

/-- `app.put('/api/projects/reorder')`: after validation, update the rank of
each listed project to its position in the submitted list, scoped to the
category. -/
def reorderProjectsHandler (store : List Project) (category : String)
    (projectIds : List String) : ProjectResponse × List Project :=
  if category = "" then
    ({ status := 400, error := some "category and projectIds are required",
       success := false }, store)
  else
    ({ status := 200, error := none, success := true },
     applyRankUpdates category projectIds.enum store)

/-! ## Responsive image library (`src/lib/images.ts`)

The static-site image helpers read a module-level library (`imagesData`,
keyed by image id, the same record shape as `ImageData` in
`src/lib/supabase.ts`, here reusing `ImageRecord`).  Every accessor below
takes the initialised library explicitly.  `getImage` returns `null` for an
unknown id; `getImageUrl` then warns and returns the empty string, and every
context-specific getter returns a `ResponsiveImage` with empty fields and
the `'50% 50%'` focal default.
-/

structure ImageOptions where
  width : Option Nat
  height : Option Nat
  fit : Option String
  quality : Option Nat
  format : Option String
  deriving DecidableEq, Repr

structure CropPreset where
  ratioW : Nat
  ratioH : Nat
  fit : String
  deriving DecidableEq, Repr

structure ImageContext where
  widths : List Nat
  sizes : String
  deriving DecidableEq, Repr

structure ResponsiveImage where
  src : String
  srcset : String
  sizes : String
  focalPoint : String
  alt : String
  deriving DecidableEq, Repr

/-- The `IMAGE_CONTEXTS` table. -/
def mobileThumbCtx : ImageContext := ⟨[400, 600, 900], "100vw"⟩

def mobileGalleryCtx : ImageContext := ⟨[400, 600, 800], "calc(100vw - 32px)"⟩

def desktopBigThumbCtx : ImageContext := ⟨[300, 400, 500, 700, 1000], "24vw"⟩

def desktopSmallThumbCtx : ImageContext := ⟨[150, 200, 300, 450], "12vw"⟩

def leftPanelGalleryCtx : ImageContext := ⟨[250, 350, 450, 600, 800], "21vw"⟩

def rightPanelGalleryCtx : ImageContext := ⟨[200, 300, 400, 600], "18.2vw"⟩

def lightboxCtx : ImageContext := ⟨[800, 1200, 1600, 2000, 2560], "100vw"⟩

/-- The `CROP_PRESETS` table. -/
def mobileBigCrop : CropPreset := ⟨3, 4, "cover"⟩

def mobileSmallCrop : CropPreset := ⟨16, 9, "cover"⟩

def desktopSmallSquareCrop : CropPreset := ⟨1, 1, "cover"⟩

/-- `getImage`: library lookup, `null` (`none`) when absent. -/
def getImage (lib : ImageStore) (id : String) : Option ImageRecord :=
  lib.lookup id

/-- `getFocalPointStyle`: CSS `object-position`, defaulting to the centre
when the image (or its focal point) is missing. -/
def getFocalPointStyle (lib : ImageStore) (id : String) : String :=
  match getImage lib id with
  | none => "50% 50%"
  | some image =>
      toString (round (image.focalPointX * 100) : ℤ) ++ "% " ++
        toString (round (image.focalPointY * 100) : ℤ) ++ "%"

/-- `getOrientation`: aspect-ratio classification, `square` for a missing
image. -/
def getOrientation (lib : ImageStore) (id : String) : String :=
  match getImage lib id with
  | none => "square"
  | some image =>
      let ratio : ℚ := (image.width : ℚ) / (image.height : ℚ)
      if ratio > 105 / 100 then "landscape"
      else if ratio < 95 / 100 then "portrait"
      else "square"

/-- `getImageUrl`: empty string (after a console warning) for an unknown id,
otherwise the Cloudflare delivery URL with the transformation variant. -/
def getImageUrl (lib : ImageStore) (id : String)
    (options : ImageOptions) : String :=
  match getImage lib id with
  | none => ""
  | some image =>
      let params : List String :=
        (match options.width with
          | some w => ["w=" ++ toString w] | none => []) ++
        (match options.height with
          | some h => ["h=" ++ toString h] | none => []) ++
        (match options.fit with
          | some f => ["fit=" ++ f] | none => []) ++
        (match options.quality with
          | some q => ["q=" ++ toString q] | none => []) ++
        (match options.format with
          | some f => ["f=" ++ f] | none => [])
      let variant :=
        if params.length > 0 then String.intercalate "," params else "public"
      "https://imagedelivery.net/" ++ image.accountHash ++ "/" ++
        image.cloudflareId ++ "/" ++ variant

/-- The options a srcset entry of width `w` uses: crop ratio height and fit
when a crop preset applies, `scale-down` otherwise. -/
def cropOptions (w : Nat) (quality : Nat) (crop : Option CropPreset) :
    ImageOptions :=
  match crop with
  | some c =>
      { width := some w,
        height :=
          some (round ((w : ℚ) * ((c.ratioH : ℚ) / (c.ratioW : ℚ)))).toNat,
        fit := some c.fit, quality := some quality, format := some "auto" }
  | none =>
      { width := some w, height := none, fit := some "scale-down",
        quality := some quality, format := some "auto" }

/-- `buildSrcset`. -/
def buildSrcset (lib : ImageStore) (id : String) (widths : List Nat)
    (crop : Option CropPreset) (quality : Nat) : String :=
  String.intercalate ", " (widths.map (fun w =>
    getImageUrl lib id (cropOptions w quality crop) ++ " " ++ toString w ++
      "w"))

/-- `getDefaultSrc`: the middle width of the context (the contexts are all
non-empty, so the JS index is always in range). -/
def getDefaultSrc (lib : ImageStore) (id : String) (widths : List Nat)
    (crop : Option CropPreset) (quality : Nat) : String :=
  getImageUrl lib id (cropOptions (widths.getD (widths.length / 2) 0)
    quality crop)

/-- The fallback record every context getter returns for an unknown id. -/
def emptyResponsiveImage : ResponsiveImage :=
  { src := "", srcset := "", sizes := "", focalPoint := "50% 50%", alt := "" }

/-- `getMobileThumbnail`. -/
def getMobileThumbnail (lib : ImageStore) (id : String)
    (category : String) : ResponsiveImage :=
  match getImage lib id with
  | none => emptyResponsiveImage
  | some image =>
      let crop := if category = "big" then mobileBigCrop else mobileSmallCrop
      { src := getDefaultSrc lib id mobileThumbCtx.widths (some crop) 80,
        srcset := buildSrcset lib id mobileThumbCtx.widths (some crop) 80,
        sizes := mobileThumbCtx.sizes,
        focalPoint := getFocalPointStyle lib id,
        alt := image.alt }

/-- `getDesktopThumbnail`. -/
def getDesktopThumbnail (lib : ImageStore) (id : String)
    (category : String) : ResponsiveImage :=
  match getImage lib id with
  | none => emptyResponsiveImage
  | some image =>
      let crop : Option CropPreset :=
        if category = "small" ∧ getOrientation lib id = "landscape" then
          some desktopSmallSquareCrop
        else none
      let ctx :=
        if category = "big" then desktopBigThumbCtx else desktopSmallThumbCtx
      { src := getDefaultSrc lib id ctx.widths crop 80,
        srcset := buildSrcset lib id ctx.widths crop 80,
        sizes := ctx.sizes,
        focalPoint := getFocalPointStyle lib id,
        alt := image.alt }

/-- `getMobileGalleryImage`. -/
def getMobileGalleryImage (lib : ImageStore) (id : String) :
    ResponsiveImage :=
  match getImage lib id with
  | none => emptyResponsiveImage
  | some image =>
      { src := getDefaultSrc lib id mobileGalleryCtx.widths none 80,
        srcset := buildSrcset lib id mobileGalleryCtx.widths none 80,
        sizes := mobileGalleryCtx.sizes,
        focalPoint := getFocalPointStyle lib id,
        alt := image.alt }

/-- `getLeftPanelGalleryImage`. -/
def getLeftPanelGalleryImage (lib : ImageStore) (id : String) :
    ResponsiveImage :=
  match getImage lib id with
  | none => emptyResponsiveImage
  | some image =>
      { src := getDefaultSrc lib id leftPanelGalleryCtx.widths none 80,
        srcset := buildSrcset lib id leftPanelGalleryCtx.widths none 80,
        sizes := leftPanelGalleryCtx.sizes,
        focalPoint := getFocalPointStyle lib id,
        alt := image.alt }

/-- `getRightPanelGalleryImage`. -/
def getRightPanelGalleryImage (lib : ImageStore) (id : String) :
    ResponsiveImage :=
  match getImage lib id with
  | none => emptyResponsiveImage
  | some image =>
      { src := getDefaultSrc lib id rightPanelGalleryCtx.widths none 80,
        srcset := buildSrcset lib id rightPanelGalleryCtx.widths none 80,
        sizes := rightPanelGalleryCtx.sizes,
        focalPoint := getFocalPointStyle lib id,
        alt := image.alt }

/-- `getLightboxImage` (quality 90). -/
def getLightboxImage (lib : ImageStore) (id : String) : ResponsiveImage :=
  match getImage lib id with
  | none => emptyResponsiveImage
  | some image =>
      { src := getDefaultSrc lib id lightboxCtx.widths none 90,
        srcset := buildSrcset lib id lightboxCtx.widths none 90,
        sizes := lightboxCtx.sizes,
        focalPoint := getFocalPointStyle lib id,
        alt := image.alt }

/-! ## Scroll controller (`src/scripts/smoothScroll.ts`)

`initSmoothScroll` keeps per-column state `{isScrolling, currentIndex,
startTime, startPosition, targetPosition}`.  Every input path (wheel, touch,
keyboard, indicator click) computes `currentIndex ± 1` and calls
`scrollToIndex`, which returns immediately when an animation is in flight or
scrolling is disabled, clamps the requested index to `[0, cards.length - 1]`,
returns when the clamped index equals the current one, and otherwise starts
the tween; only the final animation frame (progress = 1) clears `isScrolling`,
commits `currentIndex := target` and refreshes the indicators.

The wall-clock tween positions are irrelevant to the index discipline; the
model keeps `targetIndex` (the `targetIndex` closure variable) together with
the flags, and abstracts an animation run into a single `complete` event
(the frame where `progress` reaches 1).  `n` is the number of cards in the
column (`initSmoothScroll` returns early when it is 0).
-/

structure ScrollState where
  isScrolling : Bool
  currentIndex : Nat
  targetIndex : Nat
  deriving DecidableEq, Repr

/-- Initial state built by `initSmoothScroll`. -/
def initScrollState : ScrollState :=
  { isScrolling := false, currentIndex := 0, targetIndex := 0 }

/-- `scrollToIndex`: ignore the request mid-flight or when disabled, clamp to
`[0, n-1]`, ignore a no-move request, otherwise mark the animation as in
flight towards the clamped target. -/
def scrollToIndex (n : Nat) (s : ScrollState) (index : Int)
    (disabled : Bool) : ScrollState :=
  if s.isScrolling || disabled then s
  else
    let maxIndex : Int := (n : Int) - 1
    let clampedIndex : Int := max 0 (min index maxIndex)
    if clampedIndex = (s.currentIndex : Int) then s
    else { s with isScrolling := true, targetIndex := clampedIndex.toNat }

/-- The final animation frame: clear `isScrolling` and commit the target
index (the callback only runs while an animation is in flight). -/
def completeScroll (s : ScrollState) : ScrollState :=
  if s.isScrolling then
    { s with isScrolling := false, currentIndex := s.targetIndex }
  else s

/-- Events driving one column: a navigation request from any input path
(wheel / touch / keyboard / indicator click) with its delta and the
scroll-disabled flag at that moment, or the completion of the running
animation. -/
inductive ScrollEvent where
  | nav (delta : Int) (disabled : Bool)
  | complete
  deriving DecidableEq, Repr

def scrollStep (n : Nat) (s : ScrollState) : ScrollEvent → ScrollState
  | .nav delta disabled =>
      scrollToIndex n s ((s.currentIndex : Int) + delta) disabled
  | .complete => completeScroll s

def scrollRun (n : Nat) (evs : List ScrollEvent) : ScrollState :=
  evs.foldl (scrollStep n) initScrollState

/-- Visible indicator state: the up indicator shows when the index is
positive, the down indicator while it is below the last card
(`updateIndicators`). -/
def indicatorState (n : Nat) (s : ScrollState) : Bool × Bool :=
  (decide (0 < s.currentIndex), decide (s.currentIndex < n - 1))

/-! ## Desktop project panels (`src/scripts/modal.ts`)

`openProject` populates the side panel matching the card's column
(`populatePanel` writes year/location/type/description on every panel; the
left panel's markup has the `gallery` element, the right panel's the
`featured-image` element) and adds `project-open-left` /
`project-open-right` on `.main-gallery`.  `closeProject` removes both
classes and nothing else.  The DOM state touched by these functions is the
pair of open classes plus the written panel fields; the panel image markup
is represented by the image URL list (resp. the optional first image) it is
generated from.
-/

structure PanelContents where
  year : String
  location : String
  kind : String
  description : String
  galleryImages : List String
  featuredImage : Option String
  deriving DecidableEq, Repr

structure GalleryDom where
  openLeft : Bool
  openRight : Bool
  leftPanel : PanelContents
  rightPanel : PanelContents
  deriving DecidableEq, Repr

/-- The project payload read from the card's `data-project-data`. -/
structure PanelProjectData where
  images : List String
  year : Option String
  location : Option String
  kind : Option String
  deriving DecidableEq, Repr

/-- `populatePanel`: overwrite the metadata fields (em-dash defaults), the
gallery when the panel has a gallery element, and the featured image when it
has a featured-image element. -/
def populatePanel (hasGallery hasFeatured : Bool) (description : String)
    (projectData : PanelProjectData) (panel : PanelContents) :
    PanelContents :=
  { panel with
    year := projectData.year.getD "—"
    location := projectData.location.getD "—"
    kind := projectData.kind.getD "—"
    description := description
    galleryImages :=
      if hasGallery then projectData.images else panel.galleryImages
    featuredImage :=
      if hasFeatured then projectData.images.head? else panel.featuredImage }

/-- Which gallery column the clicked card lives in. -/
inductive CardColumn where
  | left
  | right
  | neither
  deriving DecidableEq, Repr

/-- `openProject`: populate the matching panel and set the matching open
class; cards outside both desktop columns are ignored. -/
def openProject (card : CardColumn) (description : String)
    (projectData : PanelProjectData) (dom : GalleryDom) : GalleryDom :=
  match card with
  | .neither => dom
  | .left =>
      { dom with
        leftPanel :=
          populatePanel true false description projectData dom.leftPanel
        openLeft := true }
  | .right =>
      { dom with
        rightPanel :=
          populatePanel false true description projectData dom.rightPanel
        openRight := true }

/-- `closeProject`: remove both open classes. -/
def closeProject (dom : GalleryDom) : GalleryDom :=
  { dom with openLeft := false, openRight := false }

/-! ## Suggested image id (`handleFile` in app.js)

On file selection the admin client suggests an id from the filename:
`file.name.replace(/\.[^/.]+$/, '').toLowerCase()
 .replace(/[^a-z0-9]+/g, '-').replace(/^-|-$/g, '')`.
Each regex is modelled over the character list: `stripExt` removes a final
dot followed by one or more non-dot, non-slash characters; `collapse`
replaces every maximal run of characters outside `[a-z0-9]` by a single
hyphen; `dropLeadingDash` / `dropTrailingDash` model the anchored
alternation `/^-|-$/g`, which removes one leading and one trailing hyphen.
-/

/-- Character class `[a-z0-9]`. -/
def isLowerAlnum (c : Char) : Bool :=
  ('a' ≤ c && c ≤ 'z') || ('0' ≤ c && c ≤ '9')

/-- `replace(/\.[^/.]+$/, '')`: drop the extension when the name ends in a
dot followed by at least one character that is neither a dot nor a slash. -/
def stripExt (s : List Char) : List Char :=
  let ext := s.reverse.takeWhile (fun c => c ≠ '.' && c ≠ '/')
  match s.reverse.drop ext.length with
  | '.' :: restRev => if ext.isEmpty then s else restRev.reverse
  | _ => s

/-- Worker for `replace(/[^a-z0-9]+/g, '-')`: `inRun` records whether the
previous character belonged to a run already replaced by a hyphen. -/
def collapseGo : List Char → Bool → List Char
  | [], _ => []
  | c :: rest, inRun =>
      if isLowerAlnum c then c :: collapseGo rest false
      else if inRun then collapseGo rest true
      else '-' :: collapseGo rest true

def collapse (l : List Char) : List Char := collapseGo l false

/-- The `^-` alternative: remove one leading hyphen. -/
def dropLeadingDash (l : List Char) : List Char :=
  match l with
  | c :: rest => if c = '-' then rest else l
  | [] => []

/-- The `-$` alternative: remove one trailing hyphen. -/
def dropTrailingDash (l : List Char) : List Char :=
  (dropLeadingDash l.reverse).reverse

/-- `replace(/^-|-$/g, '')` on the already-collapsed string. -/
def stripEdges (l : List Char) : List Char :=
  dropTrailingDash (dropLeadingDash l)

/-- The suggested id generated by `handleFile` for a filename. -/
def suggestedId (filename : String) : String :=
  ⟨stripEdges (collapse ((stripExt filename.data).map Char.toLower))⟩

/-- Adjacent characters are never both hyphens. -/
def NoTwoDashes (a b : Char) : Prop := a ≠ '-' ∨ b ≠ '-'

end InReceipt

namespace InReceipt

/-! ## Theorems -/

/-- Both index components stay below `n`. -/
def ScrollInv (n : Nat) (s : ScrollState) : Prop :=
  s.currentIndex < n ∧ s.targetIndex < n

theorem scrollStep_inv {n : Nat} {s : ScrollState} (e : ScrollEvent)
    (h : ScrollInv n s) : ScrollInv n (scrollStep n s e) := by
  obtain ⟨hc, ht⟩ := h
  cases e with
  | complete =>
      simp only [scrollStep, completeScroll]
      split
      · exact ⟨ht, ht⟩
      · exact ⟨hc, ht⟩
  | nav delta disabled =>
      simp only [scrollStep, scrollToIndex]
      split
      · exact ⟨hc, ht⟩
      · split
        · exact ⟨hc, ht⟩
        · refine ⟨hc, ?_⟩
          show (max 0 (min ((s.currentIndex : Int) + delta)
            ((n : Int) - 1))).toNat < n
          have h0 : (0 : Int) ≤
              max 0 (min ((s.currentIndex : Int) + delta) ((n : Int) - 1)) :=
            le_max_left _ _
          have h1 : max 0 (min ((s.currentIndex : Int) + delta)
              ((n : Int) - 1)) ≤ (n : Int) - 1 :=
            max_le (by omega) (min_le_right _ _)
          omega

theorem scrollRun_inv (n : Nat) (hn : 0 < n) (evs : List ScrollEvent) :
    ScrollInv n (scrollRun n evs) := by
  have : ∀ s, ScrollInv n s → ScrollInv n (evs.foldl (scrollStep n) s) := by
    induction evs with
    | nil => intro s h; exact h
    | cons e rest ih =>
        intro s h
        exact ih _ (scrollStep_inv e h)
  exact this initScrollState ⟨hn, hn⟩

/-- An index untouched by a navigation request: `scrollToIndex` never writes
`currentIndex`; only `completeScroll` does. -/
theorem scrollStep_nav_keeps_index (n : Nat) (s : ScrollState) (delta : Int)
    (disabled : Bool) :
    (scrollStep n s (.nav delta disabled)).currentIndex = s.currentIndex := by
  simp only [scrollStep, scrollToIndex]
  split
  · rfl
  · split <;> rfl

/-- **C3.** For a column of `n ≥ 1` cards driven by any sequence of
navigation requests (wheel / touch / keyboard / indicator click, each a ±1
delta) and animation completions: (a) the current index always stays in
`[0, n-1]`; (b) a navigation request issued while an animation is in flight
(`isScrolling = true`) is a no-op leaving the state unchanged; and (c) the
visible marker — `currentIndex` and the indicator pair derived from it — only
changes on an animation-completion event, never on the navigation request
itself. -/
theorem scroll_navigation_discipline (n : Nat) (hn : 1 ≤ n)
    (evs : List ScrollEvent) (s : ScrollState) (delta : Int)
    (disabled : Bool) (e : ScrollEvent) (hfly : s.isScrolling = true) :
    (scrollRun n evs).currentIndex < n ∧
    scrollStep n s (.nav delta disabled) = s ∧
    (∀ t : ScrollState, ∀ d : Int, ∀ dis : Bool,
      (scrollStep n t (.nav d dis)).currentIndex = t.currentIndex ∧
      indicatorState n (scrollStep n t (.nav d dis)) = indicatorState n t) ∧
    ((scrollStep n s e).currentIndex ≠ s.currentIndex →
      e = ScrollEvent.complete) := by
  refine ⟨(scrollRun_inv n hn evs).1, ?_, ?_, ?_⟩
  · simp [scrollStep, scrollToIndex, hfly]
  · intro t d dis
    refine ⟨scrollStep_nav_keeps_index n t d dis, ?_⟩
    unfold indicatorState
    rw [scrollStep_nav_keeps_index n t d dis]
  · intro hne
    cases e with
    | complete => rfl
    | nav d dis => exact absurd (scrollStep_nav_keeps_index n s d dis) hne

/-- Witness for C3 on a concrete three-card column: a trace stays in range, a
mid-flight navigation request is a no-op, and indices move only on
completion. -/
theorem scroll_navigation_discipline_witness :
    1 ≤ 3 ∧
    (scrollRun 3 [ScrollEvent.nav 1 false, ScrollEvent.complete,
      ScrollEvent.nav 1 false]).currentIndex < 3 ∧
    scrollStep 3 { isScrolling := true, currentIndex := 1, targetIndex := 2 }
      (.nav 1 false) =
      { isScrolling := true, currentIndex := 1, targetIndex := 2 } := by
  have h := scroll_navigation_discipline 3 (by decide)
    [ScrollEvent.nav 1 false, ScrollEvent.complete, ScrollEvent.nav 1 false]
    { isScrolling := true, currentIndex := 1, targetIndex := 2 } 1 false
    ScrollEvent.complete (by decide)
  exact ⟨by decide, h.1, h.2.1⟩

/-- **C10.** After the library is initialised, an unknown image id never
aborts page generation: `getImageUrl` falls back to the empty string, and
every context-specific getter returns the `ResponsiveImage` with empty
`src`/`srcset`/`sizes`/`alt` and focal point `'50% 50%'`. -/
theorem unknown_image_id_falls_back (lib : ImageStore) (id : String)
    (options : ImageOptions) (category : String)
    (h : lib.lookup id = none) :
    getImageUrl lib id options = "" ∧
    getMobileThumbnail lib id category = emptyResponsiveImage ∧
    getDesktopThumbnail lib id category = emptyResponsiveImage ∧
    getMobileGalleryImage lib id = emptyResponsiveImage ∧
    getLeftPanelGalleryImage lib id = emptyResponsiveImage ∧
    getRightPanelGalleryImage lib id = emptyResponsiveImage ∧
    getLightboxImage lib id = emptyResponsiveImage ∧
    emptyResponsiveImage =
      { src := "", srcset := "", sizes := "", focalPoint := "50% 50%",
        alt := "" } := by
  have hg : getImage lib id = none := h
  refine ⟨?_, ?_, ?_, ?_, ?_, ?_, ?_, rfl⟩ <;>
    simp [getImageUrl, getMobileThumbnail, getDesktopThumbnail,
      getMobileGalleryImage, getLeftPanelGalleryImage,
      getRightPanelGalleryImage, getLightboxImage, hg]

/-- Witness for C10 on an empty library and a concrete missing id. -/
theorem unknown_image_id_falls_back_witness :
    getImageUrl [] "missing" ⟨none, none, none, none, none⟩ = "" ∧
    getLightboxImage [] "missing" = emptyResponsiveImage := by
  have h := unknown_image_id_falls_back [] "missing"
    ⟨none, none, none, none, none⟩ "big" rfl
  exact ⟨h.1, h.2.2.2.2.2.2.1⟩

/-- Applying the per-position rank updates for distinct ids, starting at
position `k`, updates exactly the listed projects of the category, setting
rank `k +` the id's position. -/
theorem applyRankUpdates_eq_map (category : String) (ids : List String)
    (hnd : ids.Nodup) :
    ∀ (k : Nat) (store : List Project),
    applyRankUpdates category (ids.enumFrom k) store =
      store.map (fun p =>
        if p.id ∈ ids ∧ p.category = category then
          { p with rank := (k : Int) + (ids.indexOf p.id : Int) }
        else p) := by
  induction ids with
  | nil =>
      intro k store
      simp [applyRankUpdates]
  | cons a l ih =>
      intro k store
      obtain ⟨ha, hl⟩ := List.nodup_cons.mp hnd
      show applyRankUpdates category (l.enumFrom (k + 1))
          (applyRankUpdate category a (k : Int) store) = _
      rw [ih hl (k + 1) (applyRankUpdate category a (k : Int) store)]
      unfold applyRankUpdate
      rw [List.map_map]
      congr 1
      funext p
      by_cases hid : p.id = a
      · by_cases hcat : p.category = category
        · have hnotin : ¬ a ∈ l := ha
          simp [Function.comp, hid, hcat, hnotin, List.indexOf_cons_self]
        · simp [Function.comp, hid, hcat]
      · by_cases hmem : p.id ∈ l
        · by_cases hcat : p.category = category
          · have hidx : List.indexOf p.id (a :: l) =
                (List.indexOf p.id l) + 1 :=
              List.indexOf_cons_ne l (fun h => hid h.symm)
            simp [Function.comp, hid, hmem, hcat, hidx]
            ring
          · simp [Function.comp, hid, hmem, hcat]
        · simp [Function.comp, hid, hmem]

/-- **C2.** `PUT /api/projects/reorder` with a category and a duplicate-free
list of project ids all belonging to that category: afterwards each listed
project's rank equals its position in the submitted list, every project not
listed — in particular every project of the other category — is unchanged,
and the listed projects keep every field other than rank. -/
theorem reorder_ranks (store : List Project) (category : String)
    (projectIds : List String) (hc : category ≠ "")
    (hnd : projectIds.Nodup)
    (hcat : ∀ p ∈ store, p.id ∈ projectIds → p.category = category) :
    (reorderProjectsHandler store category projectIds).1.status = 200 ∧
    (reorderProjectsHandler store category projectIds).2 =
      store.map (fun p =>
        if p.id ∈ projectIds then
          { p with rank := (projectIds.indexOf p.id : Int) }
        else p) := by
  unfold reorderProjectsHandler
  rw [if_neg hc]
  refine ⟨rfl, ?_⟩
  show applyRankUpdates category (projectIds.enumFrom 0) store = _
  rw [applyRankUpdates_eq_map category projectIds hnd 0 store]
  apply List.map_congr_left
  intro p hp
  by_cases hmem : p.id ∈ projectIds
  · rw [if_pos ⟨hmem, hcat p hp hmem⟩, if_pos hmem]
    simp
  · rw [if_neg (fun h => hmem h.1), if_neg hmem]

/-- Witness for C2: reordering two residential projects to `["b", "a"]`
assigns ranks 0 and 1 in the submitted order and leaves the commercial
project untouched. -/
theorem reorder_ranks_witness :
    let mk : String → String → Int → Project := fun i c r =>
      { id := i, title := i, category := c, thumbnail := none,
        shortDescription := none, fullDescription := none, year := none,
        location := none, kind := none, images := [], rank := r }
    (reorderProjectsHandler
        [mk "a" "residential" 0, mk "b" "residential" 1,
         mk "x" "commercial" 5] "residential" ["b", "a"]).2 =
      [mk "a" "residential" 1, mk "b" "residential" 0,
       mk "x" "commercial" 5] := by
  intro mk
  have h := reorder_ranks
    [mk "a" "residential" 0, mk "b" "residential" 1, mk "x" "commercial" 5]
    "residential" ["b", "a"] (by decide) (by decide) (by decide)
  rw [h.2]
  decide

/-- **C1.** On `DELETE /api/images/:id` for an existing image: the Cloudflare
deletion is attempted before any local deletion (every `localDelete` in the
trace is preceded by the `cloudflareDelete`); when Cloudflare reports failure
the response is a 500 carrying the upstream details and the local store is
unchanged; and the local row is removed only when Cloudflare confirmed the
deletion. -/
theorem deleteImage_cloudflare_first (store : ImageStore)
    (cfDeleteOk : String → Bool) (dbOk : Bool) (id : String)
    (img : ImageRecord) (hmem : store.lookup id = some img) :
    (cfDeleteOk img.cloudflareId = false →
      (deleteImageHandler store cfDeleteOk dbOk id).1.status = 500 ∧
      (deleteImageHandler store cfDeleteOk dbOk id).1.details = true ∧
      (deleteImageHandler store cfDeleteOk dbOk id).2.1 = store) ∧
    ((deleteImageHandler store cfDeleteOk dbOk id).2.1 ≠ store →
      cfDeleteOk img.cloudflareId = true) ∧
    ((deleteImageHandler store cfDeleteOk dbOk id).2.2 =
      if cfDeleteOk img.cloudflareId then
        [DeleteEffect.cloudflareDelete img.cloudflareId,
         DeleteEffect.localDelete id]
      else [DeleteEffect.cloudflareDelete img.cloudflareId]) := by
  refine ⟨?_, ?_, ?_⟩ <;>
    simp only [deleteImageHandler, hmem] <;>
    cases h : cfDeleteOk img.cloudflareId <;> cases dbOk <;> simp

/-- Witness for C1 at a concrete store and oracles. -/
theorem deleteImage_cloudflare_first_witness :
    let img : ImageRecord :=
      { cloudflareId := "cf-1", accountHash := "h", focalPointX := 1/2,
        focalPointY := 1/2, alt := "a", filename := "f.jpg", width := 10,
        height := 20, uploadedAt := "t" }
    let store : ImageStore := [("pic", img)]
    (deleteImageHandler store (fun _ => false) true "pic").1.status = 500 ∧
    (deleteImageHandler store (fun _ => false) true "pic").2.1 = store := by
  intro img store
  have h := deleteImage_cloudflare_first store (fun _ => false) true "pic" img
    (by rfl)
  exact ⟨(h.1 rfl).1, (h.1 rfl).2.2⟩

/-- **C4.** Every focal point produced by `setFocalPoint` has both coordinates
in `[0, 1]`: each is the click offset normalised by the image rectangle and
clamped. -/
theorem setFocalPoint_in_unit_square (clientX clientY : ℚ) (rect : Rect)
    (hw : 0 < rect.width) (hh : 0 < rect.height) :
    0 ≤ (setFocalPoint clientX clientY rect).1 ∧
    (setFocalPoint clientX clientY rect).1 ≤ 1 ∧
    0 ≤ (setFocalPoint clientX clientY rect).2 ∧
    (setFocalPoint clientX clientY rect).2 ≤ 1 := by
  refine ⟨le_max_left _ _, ?_, le_max_left _ _, ?_⟩ <;>
    · apply max_le (by norm_num)
      exact min_le_left _ _

/-- Witness for C4: a click far outside a concrete rectangle still lands in
the unit square. -/
theorem setFocalPoint_in_unit_square_witness :
    (0:ℚ) < 200 ∧ (0:ℚ) < 100 ∧
    0 ≤ (setFocalPoint 5000 (-3) ⟨10, 20, 200, 100⟩).1 ∧
    (setFocalPoint 5000 (-3) ⟨10, 20, 200, 100⟩).1 ≤ 1 := by
  have h := setFocalPoint_in_unit_square 5000 (-3) ⟨10, 20, 200, 100⟩
    (by norm_num) (by norm_num)
  exact ⟨by norm_num, by norm_num, h.1, h.2.1⟩

/-- **C7 (counterexample).** The claim says the preload pipeline never has
more than one fetch in flight and never fetches the same URL twice.  With two
cards sharing one image URL, `setupPreloader` issues two fetches for that URL
in the same synchronous block, so two identical fetches are in flight at
once. -/
theorem preloader_not_sequential_counterexample :
    setupPreloaderFetches [["u"], ["u"]] = ["u", "u"] ∧
    ¬ (setupPreloaderFetches [["u"], ["u"]]).Nodup ∧
    1 < inFlightAfterSetup [["u"], ["u"]] := by
  refine ⟨rfl, ?_, by decide⟩
  decide

/-- **C7 (amended).** The preloader has no queue: during setup it immediately
issues one fetch per (card, image URL) pair, in card order, with no
sequencing and no deduplication; the number of in-flight fetches at the end
of setup equals the total number of image URLs across all cards. -/
theorem preloader_issues_all_fetches (cards : List (List String)) :
    setupPreloaderFetches cards = cards.flatten ∧
    inFlightAfterSetup cards = (cards.map List.length).sum := by
  constructor
  · induction cards with
    | nil => rfl
    | cons c cs ih => simp [setupPreloaderFetches, List.flatten] at ih ⊢; exact ih
  · unfold inFlightAfterSetup
    induction cards with
    | nil => rfl
    | cons c cs ih => simp [setupPreloaderFetches] at ih ⊢; exact ih

/-- **C5.** With a file selected, saving under an identifier already present
in the loaded library is rejected client-side: `validateForm` disables the
save button whenever `images[id]` exists, so a save click issues no network
request at all — neither `/api/upload` nor `/api/images/:id`. -/
theorem duplicate_id_save_blocked (images : ImageStore) (idInput : String)
    (currentFile : Option String) (uploadOk : Bool) (img : ImageRecord)
    (hdup : images.lookup (trimString idInput) = some img) :
    validateForm images idInput currentFile = true ∧
    saveClickRequests (validateForm images idInput currentFile) currentFile
      idInput uploadOk = [] := by
  have hdis : validateForm images idInput currentFile = true := by
    simp [validateForm, hdup]
  exact ⟨hdis, by simp [saveClickRequests, hdis]⟩

/-- Witness for C5 at a concrete library and form state. -/
theorem duplicate_id_save_blocked_witness :
    let img : ImageRecord :=
      { cloudflareId := "cf-1", accountHash := "h", focalPointX := 1/2,
        focalPointY := 1/2, alt := "", filename := "a.jpg", width := 1,
        height := 1, uploadedAt := "t" }
    saveClickRequests (validateForm [("house", img)] "house" (some "a.jpg"))
      (some "a.jpg") "house" true = [] := by
  intro img
  exact (duplicate_id_save_blocked [("house", img)] "house" (some "a.jpg")
    true img (by rfl)).2

/-- **C6.** `POST /api/projects` with an id already in the store responds 400
with an error message and leaves the store unchanged; with a fresh id it
inserts the normalised project and reports success. -/
theorem createProject_duplicate_rejected (store : List Project)
    (body : ProjectBody) :
    ((∃ p ∈ store, p.id = body.id) →
      createProjectHandler store body =
        ({ status := 400, error := some "Project ID already exists",
           success := false }, store)) ∧
    ((∀ p ∈ store, p.id ≠ body.id) →
      createProjectHandler store body =
        ({ status := 200, error := none, success := true },
         store ++ [projectDataToRow body])) := by
  constructor
  · rintro ⟨p, hp, hid⟩
    have : (store.find? (fun q => q.id == body.id)).isSome := by
      rw [List.find?_isSome]
      exact ⟨p, hp, by simp [hid]⟩
    simp [createProjectHandler, this]
  · intro hfresh
    have : store.find? (fun q => q.id == body.id) = none := by
      rw [List.find?_eq_none]
      intro p hp
      simp [hfresh p hp]
    simp [createProjectHandler, this]

/-- Witness for C6: a duplicate id is rejected and a fresh id is inserted, on
concrete stores. -/
theorem createProject_duplicate_rejected_witness :
    let p : Project :=
      { id := "casa", title := "Casa", category := "residential",
        thumbnail := none, shortDescription := none, fullDescription := none,
        year := none, location := none, kind := none, images := [],
        rank := 0 }
    let body : ProjectBody :=
      { id := "casa", title := "Casa 2", category := "commercial",
        thumbnail := none, shortDescription := none, fullDescription := none,
        year := none, location := none, kind := none, images := none,
        rank := none }
    createProjectHandler [p] body =
      ({ status := 400, error := some "Project ID already exists",
         success := false }, [p]) ∧
    createProjectHandler [] body =
      ({ status := 200, error := none, success := true },
       [projectDataToRow body]) := by
  intro p body
  refine ⟨(createProject_duplicate_rejected [p] body).1 ⟨p, by simp, rfl⟩, ?_⟩
  have h := (createProject_duplicate_rejected [] body).2 (by simp)
  simpa using h

/-- Every character the run-collapser emits is in `[a-z0-9]` or a hyphen. -/
theorem collapseGo_mem (l : List Char) :
    ∀ (b : Bool), ∀ c ∈ collapseGo l b, isLowerAlnum c = true ∨ c = '-' := by
  induction l with
  | nil => intro b c hc; simp [collapseGo] at hc
  | cons a rest ih =>
      intro b c hc
      by_cases ha : isLowerAlnum a = true
      · rw [collapseGo, if_pos ha] at hc
        rcases List.mem_cons.mp hc with h | h
        · exact Or.inl (h ▸ ha)
        · exact ih false c h
      · rw [collapseGo, if_neg ha] at hc
        cases b with
        | true => exact ih true c (by simpa using hc)
        | false =>
            rcases List.mem_cons.mp (by simpa using hc) with h | h
            · exact Or.inr h
            · exact ih true c h

/-- Right after a replaced run, the next emitted character is never a
hyphen. -/
theorem collapseGo_head_ne_dash (l : List Char) :
    (collapseGo l true).head? ≠ some '-' := by
  induction l with
  | nil => simp [collapseGo]
  | cons a rest ih =>
      by_cases ha : isLowerAlnum a = true
      · rw [collapseGo, if_pos ha]
        intro h
        have : a = '-' := by simpa using h
        rw [this] at ha
        exact absurd ha (by decide)
      · rw [collapseGo, if_neg ha]
        simpa using ih

/-- The run-collapsed list never holds two adjacent hyphens. -/
theorem collapseGo_chain (l : List Char) :
    ∀ (b : Bool), (collapseGo l b).Chain' NoTwoDashes := by
  induction l with
  | nil => intro b; simp [collapseGo]
  | cons a rest ih =>
      intro b
      by_cases ha : isLowerAlnum a = true
      · rw [collapseGo, if_pos ha]
        refine List.chain'_cons'.mpr ⟨?_, ih false⟩
        intro y _
        exact Or.inl (fun h => absurd (h ▸ ha) (by decide))
      · rw [collapseGo, if_neg ha]
        cases b with
        | true => simpa using ih true
        | false =>
            simp only [Bool.false_eq_true, if_false]
            refine List.chain'_cons'.mpr ⟨?_, ih true⟩
            intro y hy
            right
            intro hdash
            rw [hdash] at hy
            exact collapseGo_head_ne_dash rest hy

/-- Dropping one leading hyphen keeps only characters of the original
list. -/
theorem dropLeadingDash_subset (l : List Char) :
    ∀ c ∈ dropLeadingDash l, c ∈ l := by
  intro c
  cases l with
  | nil => simp [dropLeadingDash]
  | cons a rest =>
      by_cases ha : a = '-'
      · simp only [dropLeadingDash, if_pos ha]
        exact fun h => List.mem_cons_of_mem a h
      · simp only [dropLeadingDash, if_neg ha]
        exact fun h => h

/-- Dropping one leading hyphen preserves hyphen-separation. -/
theorem dropLeadingDash_chain {l : List Char} (h : l.Chain' NoTwoDashes) :
    (dropLeadingDash l).Chain' NoTwoDashes := by
  cases l with
  | nil => simpa [dropLeadingDash] using h
  | cons a rest =>
      by_cases ha : a = '-'
      · simp only [dropLeadingDash, if_pos ha]
        exact h.tail
      · simp only [dropLeadingDash, if_neg ha]
        exact h

/-- After dropping one leading hyphen from a hyphen-separated list, the head
is not a hyphen. -/
theorem dropLeadingDash_head {l : List Char} (h : l.Chain' NoTwoDashes) :
    (dropLeadingDash l).head? ≠ some '-' := by
  cases l with
  | nil => simp [dropLeadingDash]
  | cons a rest =>
      by_cases ha : a = '-'
      · simp only [dropLeadingDash, if_pos ha]
        cases rest with
        | nil => simp
        | cons b tl =>
            intro hh
            have hb : b = '-' := by simpa using hh
            rcases (List.chain'_cons'.mp h).1 b rfl with h1 | h1
            · exact h1 ha
            · exact h1 hb
      · simp only [dropLeadingDash, if_neg ha]
        intro hh
        exact ha (by simpa using hh)

/-- Dropping one leading hyphen cannot introduce a trailing hyphen. -/
theorem dropLeadingDash_getLast {l : List Char}
    (h : l.getLast? ≠ some '-') :
    (dropLeadingDash l).getLast? ≠ some '-' := by
  cases l with
  | nil => simp [dropLeadingDash]
  | cons a rest =>
      by_cases ha : a = '-'
      · simp only [dropLeadingDash, if_pos ha]
        cases rest with
        | nil => simp
        | cons b tl => rw [List.getLast?_cons_cons] at h; exact h
      · simp only [dropLeadingDash, if_neg ha]
        exact h

/-- `NoTwoDashes` chains transfer across `reverse`. -/
theorem chain_noTwoDashes_reverse {l : List Char} :
    l.reverse.Chain' NoTwoDashes ↔ l.Chain' NoTwoDashes := by
  rw [List.chain'_reverse]
  constructor <;> exact fun h => h.imp (fun a b hab => Or.symm hab)

/-- **C9.** The suggested image id generated on file selection consists only
of lowercase letters, digits and hyphens, never holds two adjacent hyphens
(runs were collapsed to a single hyphen), and neither starts nor ends with a
hyphen; it is built from the filename by dropping the extension, lowercasing
and collapsing non-alphanumeric runs, and may be empty. -/
theorem suggestedId_shape (filename : String) :
    (∀ c ∈ (suggestedId filename).data, isLowerAlnum c = true ∨ c = '-') ∧
    (suggestedId filename).data.Chain' NoTwoDashes ∧
    (suggestedId filename).data.head? ≠ some '-' ∧
    (suggestedId filename).data.getLast? ≠ some '-' := by
  have hdata : (suggestedId filename).data =
      stripEdges (collapse ((stripExt filename.data).map Char.toLower)) :=
    rfl
  set l0 : List Char :=
    collapse ((stripExt filename.data).map Char.toLower) with hl0
  have hch0 : l0.Chain' NoTwoDashes := collapseGo_chain _ false
  set l1 : List Char := dropLeadingDash l0 with hl1
  have hch1 : l1.Chain' NoTwoDashes := dropLeadingDash_chain hch0
  have hhead1 : l1.head? ≠ some '-' := dropLeadingDash_head hch0
  have hr : stripEdges l0 = (dropLeadingDash l1.reverse).reverse := rfl
  rw [hdata, hr]
  refine ⟨?_, ?_, ?_, ?_⟩
  · intro c hc
    apply collapseGo_mem _ false c
    have h1 : c ∈ l1.reverse :=
      dropLeadingDash_subset _ c (List.mem_reverse.mp (by simpa using hc))
    exact dropLeadingDash_subset l0 c (List.mem_reverse.mp h1)
  · exact chain_noTwoDashes_reverse.mpr
      (dropLeadingDash_chain (chain_noTwoDashes_reverse.mpr hch1))
  · rw [List.head?_reverse]
    apply dropLeadingDash_getLast
    rw [List.getLast?_reverse]
    exact hhead1
  · rw [List.getLast?_reverse]
    exact dropLeadingDash_head (chain_noTwoDashes_reverse.mpr hch1)

/-- Witness for C9 on a concrete filename: `"My Photo (1).JPG"` suggests
`"my-photo-1"`, whose characters the theorem classifies and whose head is
not a hyphen. -/
theorem suggestedId_shape_witness :
    suggestedId "My Photo (1).JPG" = "my-photo-1" ∧
    'm' ∈ (suggestedId "My Photo (1).JPG").data ∧
    (isLowerAlnum 'm' = true ∨ 'm' = '-') ∧
    (suggestedId "My Photo (1).JPG").data.head? ≠ some '-' := by
  refine ⟨by decide, by decide, ?_, ?_⟩
  · exact (suggestedId_shape "My Photo (1).JPG").1 'm' (by decide)
  · exact (suggestedId_shape "My Photo (1).JPG").2.2.1

/-- **C8 (counterexample).** Opening and closing a project does not restore
the DOM to the pre-open state: `closeProject` removes the open classes but
leaves the panel contents written by `openProject` in place.  Starting from
a closed gallery whose left panel holds year `"A"`, opening a left-column
card whose project year is `"2020"` and closing again leaves the panel year
at `"2020"`. -/
theorem open_close_not_inverse_counterexample :
    closeProject (openProject CardColumn.left "desc"
        ⟨["img1"], some "2020", none, none⟩
        ⟨false, false, ⟨"A", "B", "C", "D", [], none⟩,
          ⟨"A", "B", "C", "D", [], none⟩⟩) ≠
      ⟨false, false, ⟨"A", "B", "C", "D", [], none⟩,
        ⟨"A", "B", "C", "D", [], none⟩⟩ ∧
    (closeProject (openProject CardColumn.left "desc"
        ⟨["img1"], some "2020", none, none⟩
        ⟨false, false, ⟨"A", "B", "C", "D", [], none⟩,
          ⟨"A", "B", "C", "D", [], none⟩⟩)).leftPanel.year = "2020" := by
  constructor
  · decide
  · rfl

/-- **C8 (amended).** Closing after opening restores the gallery's
open/close class state to the pre-open (closed) state and changes nothing
else — but the panel contents written by the open remain in the panels
(they are merely hidden), so restoration of the full DOM holds only when
those contents already matched. -/
theorem open_close_restores_classes_only (dom : GalleryDom)
    (card : CardColumn) (description : String)
    (projectData : PanelProjectData) (hL : dom.openLeft = false)
    (hR : dom.openRight = false) :
    closeProject (openProject card description projectData dom) =
      { dom with
        leftPanel := (openProject card description projectData dom).leftPanel
        rightPanel :=
          (openProject card description projectData dom).rightPanel } := by
  cases card <;>
    simp [openProject, closeProject, hL, hR]

/-- Witness for the amended C8 on a concrete closed gallery. -/
theorem open_close_restores_classes_only_witness :
    closeProject (openProject CardColumn.right "d"
        ⟨["u"], none, none, none⟩
        ⟨false, false, ⟨"y", "l", "t", "d0", [], none⟩,
          ⟨"y", "l", "t", "d0", [], none⟩⟩) =
      { openLeft := false, openRight := false,
        leftPanel := ⟨"y", "l", "t", "d0", [], none⟩,
        rightPanel :=
          (openProject CardColumn.right "d" ⟨["u"], none, none, none⟩
            ⟨false, false, ⟨"y", "l", "t", "d0", [], none⟩,
              ⟨"y", "l", "t", "d0", [], none⟩⟩).rightPanel } := by
  exact open_close_restores_classes_only
    ⟨false, false, ⟨"y", "l", "t", "d0", [], none⟩,
      ⟨"y", "l", "t", "d0", [], none⟩⟩
    CardColumn.right "d" ⟨["u"], none, none, none⟩ rfl rfl

end InReceipt
